import Mathlib

/-!
Verification of `crates/lang/src/contract_ref.rs` (ink! call builder / call forwarder).

Shallow embedding conventions:

* `A` stands for the external address type `<E as ink_env::Environment>::AccountId`;
  it is opaque to this module, so every definition is parameterised over it and over
  records bundling the trait operations the source requires of it
  (`scale::Encode`/`scale::Decode`, `SpreadLayout`, `Hash`, `PartialEq`, `Clone`).
* `T` is the phantom compile-time contract tag (`PhantomData<fn() -> T>` in the source):
  it occurs only as a type parameter and contributes no data.
* SCALE byte streams are `List Nat` (one `Nat` per byte); the mutable `Input`/`Output`
  streams are modelled by explicit state passing: `encode_to` appends to a destination
  buffer, `decode` returns the decoded value together with the unconsumed remainder.
* `&mut` method receivers and the ambient storage touched by the layout traits are
  modelled by explicit state passing over abstract cursor (`K`) and storage (`S`) types.
* Addresses have value semantics (the source only copies them), so the external
  `Clone` implementation is an abstract function `aclone : A → A`; theorems that need
  the `Clone` contract (`clone` returns an equal duplicate) take it as a hypothesis.
-/

/-- Opaque decode error of the external SCALE codec (`scale::Error`). -/
structure ScaleError where
  msg : String
deriving DecidableEq, Repr

/-- The external address type's SCALE codec surface
(`scale::Encode` and `scale::Decode` for `AccountId`). -/
structure AccountScale (A : Type) where
  size_hint : A → Nat
  encode_to : A → List Nat → List Nat
  decode : List Nat → Except ScaleError (A × List Nat)

/-- `scale::Encode::encode`'s default method: `encode_to` into a fresh buffer. -/
def scale_encode {α : Type} (encode_to : α → List Nat → List Nat) (x : α) : List Nat :=
  encode_to x []

/-- The external address type's `SpreadLayout` surface, over an abstract storage
cursor type `K` (`ink_primitives::KeyPtr`) and storage state type `S`. -/
structure AccountSpread (A K S : Type) where
  footprint : Nat
  requires_deep_clean_up : Bool
  pull_spread : K → S → A × K
  push_spread : A → K → S → S × K
  clear_spread : A → K → S → S × K

universe u

variable {T : Type u} {A K S σ : Type}

/-- `CallBuilderBase<T, E>`: one address field plus the phantom tag `T`
(`PhantomData<fn() -> T>` holds no data, so it is only a type parameter here). -/
structure CallBuilderBase (T : Type u) (A : Type) where
  account_id : A
deriving DecidableEq, Repr

/-- `FromAccountId::from_account_id` for `CallBuilderBase` (source lines 124-135). -/
def CallBuilderBase.from_account_id (a : A) : CallBuilderBase T A :=
  ⟨a⟩

/-- `Clone::clone` for `CallBuilderBase` (source lines 77-89): clones the address field. -/
def CallBuilderBase.clone (aclone : A → A) (h : CallBuilderBase T A) : CallBuilderBase T A :=
  ⟨aclone h.account_id⟩

/-- `scale::Encode::size_hint` for `CallBuilderBase` (source lines 96-101):
delegates to the address's size hint. -/
def CallBuilderBase.size_hint (cd : AccountScale A) (h : CallBuilderBase T A) : Nat :=
  cd.size_hint h.account_id

/-- `scale::Encode::encode_to` for `CallBuilderBase` (source lines 103-109):
delegates to the address's `encode_to`. -/
def CallBuilderBase.encode_to (cd : AccountScale A) (h : CallBuilderBase T A)
    (dest : List Nat) : List Nat :=
  cd.encode_to h.account_id dest

/-- `scale::Encode::encode` for `CallBuilderBase` (default method of the trait). -/
def CallBuilderBase.encode (cd : AccountScale A) (h : CallBuilderBase T A) : List Nat :=
  CallBuilderBase.encode_to cd h []

/-- `scale::Decode::decode` for `CallBuilderBase` (source lines 117-121):
`AccountId::decode(input).map(from_account_id)`. -/
def CallBuilderBase.decode (cd : AccountScale A) (input : List Nat) :
    Except ScaleError (CallBuilderBase T A × List Nat) :=
  match cd.decode input with
  | .ok (a, rest) => .ok (CallBuilderBase.from_account_id a, rest)
  | .error e => .error e

/-- `ToAccountId::to_account_id` for `CallBuilderBase` (source lines 142-147):
returns `Clone::clone` of the held address. -/
def CallBuilderBase.to_account_id (aclone : A → A) (h : CallBuilderBase T A) : A :=
  aclone h.account_id

/-- `Hash::hash` for `CallBuilderBase` (source lines 155-164), over an abstract hasher
state `σ`: delegates to the address's hash. -/
def CallBuilderBase.hash (ahash : A → σ → σ) (h : CallBuilderBase T A) (st : σ) : σ :=
  ahash h.account_id st

/-- `PartialEq::eq` for `CallBuilderBase` (source lines 172-175):
`self.account_id == other.account_id`. -/
def CallBuilderBase.eq (aeq : A → A → Bool) (x y : CallBuilderBase T A) : Bool :=
  aeq x.account_id y.account_id

/-- Rendering of one field of Rust's `core::fmt::DebugStruct` chain: the fields are
printed `key: value` and separated by `", "` (non-alternate formatting). -/
def debug_fields : List (String × String) → String
  | [] => ""
  | [(k, v)] => k ++ ": " ++ v
  | (k, v) :: rest => k ++ ": " ++ v ++ ", " ++ debug_fields rest

/-- Rendering of `Formatter::debug_struct(name). ... .finish()` (non-alternate):
`Name \x7b k1: v1, k2: v2 \x7d`, or just `Name` when there are no fields. -/
def debug_struct (n : String) (fields : List (String × String)) : String :=
  match fields with
  | [] => n
  | fs => n ++ " \x7b " ++ debug_fields fs ++ " \x7d"

/-- `Debug` rendering of a `&'static str` field value: Rust quotes it.
(Escaping of special characters inside the name is elided; contract names are
plain identifiers.) -/
def str_debug (s : String) : String :=
  "\"" ++ s ++ "\""

/-- `core::fmt::Debug::fmt` for `CallBuilderBase` (source lines 61-67): a struct named
`"ContractRef"` with the contract's `ContractName::NAME` and the address's own debug
rendering `fmtA` as fields. -/
def CallBuilderBase.fmt (NAME : String) (fmtA : A → String) (h : CallBuilderBase T A) :
    String :=
  debug_struct "ContractRef" [("name", str_debug NAME), ("account_id", fmtA h.account_id)]

/-- `SpreadLayout::FOOTPRINT` for `CallBuilderBase` (source line 190): the constant `1`,
written with the type parameters explicit to record that it does not depend on them.
(`u64` in the source; the value `1` makes overflow irrelevant.) -/
def CallBuilderBase.FOOTPRINT (T : Type u) (A : Type) : Nat :=
  1

/-- `SpreadLayout::REQUIRES_DEEP_CLEAN_UP` for `CallBuilderBase` (source line 191). -/
def CallBuilderBase.REQUIRES_DEEP_CLEAN_UP (T : Type u) (A : Type) : Bool :=
  false

/-- `SpreadLayout::pull_spread` for `CallBuilderBase` (source lines 193-200):
pulls the address at the cursor and wraps it. -/
def CallBuilderBase.pull_spread (sp : AccountSpread A K S) (ptr : K) (st : S) :
    CallBuilderBase T A × K :=
  ((⟨(sp.pull_spread ptr st).1⟩ : CallBuilderBase T A), (sp.pull_spread ptr st).2)

/-- `SpreadLayout::push_spread` for `CallBuilderBase` (source lines 202-206). -/
def CallBuilderBase.push_spread (sp : AccountSpread A K S) (h : CallBuilderBase T A)
    (ptr : K) (st : S) : S × K :=
  sp.push_spread h.account_id ptr st

/-- `SpreadLayout::clear_spread` for `CallBuilderBase` (source lines 208-212). -/
def CallBuilderBase.clear_spread (sp : AccountSpread A K S) (h : CallBuilderBase T A)
    (ptr : K) (st : S) : S × K :=
  sp.clear_spread h.account_id ptr st

/-- `PackedLayout::pull_packed` for `CallBuilderBase` (source line 221): the body is
empty, so the `&mut self` receiver and the ambient storage are returned unchanged. -/
def CallBuilderBase.pull_packed (h : CallBuilderBase T A) (_at : K) (st : S) :
    CallBuilderBase T A × S :=
  (h, st)

/-- `PackedLayout::push_packed` for `CallBuilderBase` (source line 224): empty body,
storage unchanged. -/
def CallBuilderBase.push_packed (h : CallBuilderBase T A) (_at : K) (st : S) : S :=
  st

/-- `PackedLayout::clear_packed` for `CallBuilderBase` (source line 227): empty body,
storage unchanged. -/
def CallBuilderBase.clear_packed (h : CallBuilderBase T A) (_at : K) (st : S) : S :=
  st

/-- `ContractRef<T, E>`: a transparent wrapper holding exactly one `CallBuilderBase`
(source lines 242-248). -/
structure ContractRef (T : Type u) (A : Type) where
  call_builder : CallBuilderBase T A
deriving DecidableEq, Repr

/-- `TraitCallBuilder::call` for `ContractRef` (source lines 256-259): a shared
reference to the inner builder, modelled as the projection. -/
def ContractRef.call (r : ContractRef T A) : CallBuilderBase T A :=
  r.call_builder

/-- `core::fmt::Debug::fmt` for `ContractRef` (source lines 273-277): a struct named
`"CallForwarderBase"` whose single field is the inner builder's debug rendering. -/
def ContractRef.fmt (NAME : String) (fmtA : A → String) (r : ContractRef T A) : String :=
  debug_struct "CallForwarderBase"
    [("call_builder", CallBuilderBase.fmt NAME fmtA r.call_builder)]

/-- `Clone::clone` for `ContractRef` (source lines 292-297). -/
def ContractRef.clone (aclone : A → A) (r : ContractRef T A) : ContractRef T A :=
  ⟨CallBuilderBase.clone aclone r.call_builder⟩

/-- `scale::Encode::size_hint` for `ContractRef` (source lines 305-308). -/
def ContractRef.size_hint (cd : AccountScale A) (r : ContractRef T A) : Nat :=
  CallBuilderBase.size_hint cd r.call_builder

/-- `scale::Encode::encode_to` for `ContractRef` (source lines 310-313). -/
def ContractRef.encode_to (cd : AccountScale A) (r : ContractRef T A)
    (dest : List Nat) : List Nat :=
  CallBuilderBase.encode_to cd r.call_builder dest

/-- `scale::Encode::encode` for `ContractRef` (default method of the trait). -/
def ContractRef.encode (cd : AccountScale A) (r : ContractRef T A) : List Nat :=
  ContractRef.encode_to cd r []

/-- `scale::Decode::decode` for `ContractRef` (source lines 321-325):
`CallBuilderBase::decode(input).map(|call_builder| Self { call_builder })`. -/
def ContractRef.decode (cd : AccountScale A) (input : List Nat) :
    Except ScaleError (ContractRef T A × List Nat) :=
  match CallBuilderBase.decode (T := T) cd input with
  | .ok (cb, rest) => .ok (⟨cb⟩, rest)
  | .error e => .error e

/-- `FromAccountId::from_account_id` for `ContractRef` (source lines 332-338). -/
def ContractRef.from_account_id (a : A) : ContractRef T A :=
  ⟨CallBuilderBase.from_account_id a⟩

/-- `ToAccountId::to_account_id` for `ContractRef` (source lines 346-351). -/
def ContractRef.to_account_id (aclone : A → A) (r : ContractRef T A) : A :=
  CallBuilderBase.to_account_id aclone r.call_builder

/-- `Hash::hash` for `ContractRef` (source lines 359-365). -/
def ContractRef.hash (ahash : A → σ → σ) (r : ContractRef T A) (st : σ) : σ :=
  CallBuilderBase.hash ahash r.call_builder st

/-- `PartialEq::eq` for `ContractRef` (source lines 373-376). -/
def ContractRef.eq (aeq : A → A → Bool) (x y : ContractRef T A) : Bool :=
  CallBuilderBase.eq aeq x.call_builder y.call_builder

/-- `SpreadLayout::FOOTPRINT` for `ContractRef` (source line 391): the constant `1`. -/
def ContractRef.FOOTPRINT (T : Type u) (A : Type) : Nat :=
  1

/-- `SpreadLayout::REQUIRES_DEEP_CLEAN_UP` for `ContractRef` (source line 392). -/
def ContractRef.REQUIRES_DEEP_CLEAN_UP (T : Type u) (A : Type) : Bool :=
  false

/-- `SpreadLayout::pull_spread` for `ContractRef` (source lines 394-402). -/
def ContractRef.pull_spread (sp : AccountSpread A K S) (ptr : K) (st : S) :
    ContractRef T A × K :=
  ((⟨(CallBuilderBase.pull_spread (T := T) sp ptr st).1⟩ : ContractRef T A),
    (CallBuilderBase.pull_spread (T := T) sp ptr st).2)

/-- `SpreadLayout::push_spread` for `ContractRef` (source lines 404-410). -/
def ContractRef.push_spread (sp : AccountSpread A K S) (r : ContractRef T A)
    (ptr : K) (st : S) : S × K :=
  CallBuilderBase.push_spread sp r.call_builder ptr st

/-- `SpreadLayout::clear_spread` for `ContractRef` (source lines 412-418). -/
def ContractRef.clear_spread (sp : AccountSpread A K S) (r : ContractRef T A)
    (ptr : K) (st : S) : S × K :=
  CallBuilderBase.clear_spread sp r.call_builder ptr st

/-- `PackedLayout::pull_packed` for `ContractRef` (source line 427): empty body. -/
def ContractRef.pull_packed (r : ContractRef T A) (_at : K) (st : S) :
    ContractRef T A × S :=
  (r, st)

/-- `PackedLayout::push_packed` for `ContractRef` (source line 430): empty body. -/
def ContractRef.push_packed (r : ContractRef T A) (_at : K) (st : S) : S :=
  st

/-- `PackedLayout::clear_packed` for `ContractRef` (source line 433): empty body. -/
def ContractRef.clear_packed (r : ContractRef T A) (_at : K) (st : S) : S :=
  st

/-! ### Concrete instantiation used by the witnesses

A one-byte address codec over `A := Nat`: faithful to the SCALE contract on the
instances the witnesses use (`decode` undoes `encode` and errors on empty input). -/

/-- A concrete one-byte `AccountScale` instance over `Nat` for witness evaluation. -/
def natScale : AccountScale Nat where
  size_hint := fun _ => 1
  encode_to := fun a dest => dest ++ [a % 256]
  decode := fun input =>
    match input with
    | [] => .error ⟨"Not enough data to fill buffer"⟩
    | b :: rest => .ok (b, rest)

/-! ### Claims -/

/-- C1: for every Call-Builder Handle `h` wrapping an address, `encode h` produces
exactly the byte sequence encoding the wrapped address alone produces (also through
`encode_to`, for every destination buffer), and `size_hint h` equals the address's
own size hint. -/
theorem c1_encode_size_hint_delegate (cd : AccountScale A) (h : CallBuilderBase T A) :
    CallBuilderBase.encode cd h = scale_encode cd.encode_to h.account_id
    ∧ (∀ dest : List Nat, CallBuilderBase.encode_to cd h dest = cd.encode_to h.account_id dest)
    ∧ CallBuilderBase.size_hint cd h = cd.size_hint h.account_id :=
  ⟨rfl, fun _ => rfl, rfl⟩

/-- C2: for every address `a` whose external codec round-trips (SCALE's own contract
for the address type, `valid address` in the spec), decoding the bytes obtained by
encoding the handle built from `a` succeeds and yields exactly the handle built from
`a`, with the input fully consumed. -/
theorem c2_decode_encode_roundtrip (cd : AccountScale A) (a : A)
    (ha : cd.decode (scale_encode cd.encode_to a) = .ok (a, [])) :
    CallBuilderBase.decode (T := T) cd
        (CallBuilderBase.encode cd (CallBuilderBase.from_account_id (T := T) a))
      = .ok (CallBuilderBase.from_account_id (T := T) a, []) := by
  show CallBuilderBase.decode (T := T) cd (cd.encode_to a []) = _
  unfold CallBuilderBase.decode
  rw [show cd.encode_to a [] = scale_encode cd.encode_to a from rfl, ha]

/-- Witness for C2 at the concrete codec `natScale` and address `42`. -/
theorem c2_decode_encode_roundtrip_witness :
    CallBuilderBase.decode (T := Unit) natScale
        (CallBuilderBase.encode natScale (CallBuilderBase.from_account_id (T := Unit) 42))
      = .ok (CallBuilderBase.from_account_id (T := Unit) 42, []) :=
  c2_decode_encode_roundtrip natScale 42 rfl

/-- C3: for every input byte sequence, handle decoding (for the builder and for the
forwarder) succeeds exactly when the address decoder succeeds; on success the result
is `from_account_id` of the decoded address (with the same unconsumed remainder), and
on failure the address decoder's error is returned unchanged. All functions involved
are total, so no abort and no default handle can be produced. -/
theorem c3_decode_propagates (cd : AccountScale A) (input : List Nat) :
    (∀ (a : A) (rest : List Nat), cd.decode input = .ok (a, rest) →
      CallBuilderBase.decode (T := T) cd input
          = .ok (CallBuilderBase.from_account_id a, rest)
        ∧ ContractRef.decode (T := T) cd input = .ok (ContractRef.from_account_id a, rest))
    ∧ (∀ e : ScaleError, cd.decode input = .error e →
      CallBuilderBase.decode (T := T) cd input = .error e
        ∧ ContractRef.decode (T := T) cd input = .error e)
    ∧ ((∃ p, CallBuilderBase.decode (T := T) cd input = .ok p)
        ↔ ∃ q, cd.decode input = .ok q) := by
  refine ⟨?_, ?_, ?_⟩
  · intro a rest hok
    constructor
    · unfold CallBuilderBase.decode
      rw [hok]
    · unfold ContractRef.decode CallBuilderBase.decode
      rw [hok]
      exact rfl
  · intro e herr
    constructor
    · unfold CallBuilderBase.decode
      rw [herr]
    · unfold ContractRef.decode CallBuilderBase.decode
      rw [herr]
  · unfold CallBuilderBase.decode
    cases hcd : cd.decode input with
    | ok q => exact ⟨fun _ => ⟨q, rfl⟩, fun _ => ⟨(CallBuilderBase.from_account_id q.1, q.2), rfl⟩⟩
    | error e =>
      constructor
      · rintro ⟨p, hp⟩
        simp at hp
      · rintro ⟨q, hq⟩
        exact absurd hq (by simp)

/-- Witness for C3: the concrete decoder rejects the empty input and the handle
decoder returns the very same error. -/
theorem c3_decode_propagates_witness :
    CallBuilderBase.decode (T := Unit) natScale [] = .error ⟨"Not enough data to fill buffer"⟩
    ∧ ContractRef.decode (T := Unit) natScale [] = .error ⟨"Not enough data to fill buffer"⟩ :=
  (c3_decode_propagates natScale []).2.1 ⟨"Not enough data to fill buffer"⟩ rfl

/-- C4: for every address `a`, provided the external `Clone` implementation satisfies
its contract of returning an equal duplicate (`aclone x = x`; addresses are value
types), `from_account_id a |> to_account_id = a`, for the builder and the forwarder;
both conversions are total functions. -/
theorem c4_to_from_account_id (aclone : A → A) (hclone : ∀ x : A, aclone x = x) (a : A) :
    CallBuilderBase.to_account_id aclone (CallBuilderBase.from_account_id (T := T) a) = a
    ∧ ContractRef.to_account_id aclone (ContractRef.from_account_id (T := T) a) = a := by
  constructor
  · show aclone a = a
    exact hclone a
  · show aclone a = a
    exact hclone a

/-- Witness for C4 at `A := Nat`, the identity clone and address `42`. -/
theorem c4_to_from_account_id_witness :
    CallBuilderBase.to_account_id id (CallBuilderBase.from_account_id (T := Unit) (42 : Nat)) = 42
    ∧ ContractRef.to_account_id id (ContractRef.from_account_id (T := Unit) (42 : Nat)) = 42 :=
  c4_to_from_account_id id (fun _ => rfl) 42

/-- C5 counterexample: the claim includes debug formatting among the operations whose
result through the forwarder is identical to the builder's, but the forwarder's
`Debug` implementation (source lines 273-277) wraps the builder's rendering inside a
`CallForwarderBase` struct with a `call_builder` field instead of reproducing it, so
at a concrete address the two debug strings differ. -/
theorem c5_forwarder_transparency_counterexample :
    ContractRef.fmt "Flipper" (fun n : Nat => toString n)
        (ContractRef.from_account_id (T := Unit) 5)
      ≠ CallBuilderBase.fmt "Flipper" (fun n : Nat => toString n)
        (CallBuilderBase.from_account_id (T := Unit) 5) := by
  decide

/-- C5 (amended): every operation other than debug formatting yields, through the
forwarder, a result identical to the builder's (identical up to the transparent
`ContractRef` constructor for the operations that return a handle: decode, spread
pull, packed pull); debug formatting delegates the builder's rendering verbatim but
wraps it as the single `call_builder` field of a struct named `CallForwarderBase`,
so the resulting strings are not identical. -/
theorem c5_forwarder_delegation (cd : AccountScale A) (sp : AccountSpread A K S)
    (aeq : A → A → Bool) (ahash : A → σ → σ) (aclone : A → A)
    (NAME : String) (fmtA : A → String) (b b' : CallBuilderBase T A)
    (input dest : List Nat) (ptr k : K) (st : S) (s : σ) :
    ContractRef.size_hint cd ⟨b⟩ = CallBuilderBase.size_hint cd b
    ∧ ContractRef.encode_to cd ⟨b⟩ dest = CallBuilderBase.encode_to cd b dest
    ∧ ContractRef.encode cd ⟨b⟩ = CallBuilderBase.encode cd b
    ∧ ContractRef.decode (T := T) cd input
        = (CallBuilderBase.decode (T := T) cd input).map (fun p => (⟨p.1⟩, p.2))
    ∧ ContractRef.to_account_id aclone ⟨b⟩ = CallBuilderBase.to_account_id aclone b
    ∧ ContractRef.eq aeq ⟨b⟩ ⟨b'⟩ = CallBuilderBase.eq aeq b b'
    ∧ ContractRef.hash ahash ⟨b⟩ s = CallBuilderBase.hash ahash b s
    ∧ ContractRef.clone aclone ⟨b⟩ = ⟨CallBuilderBase.clone aclone b⟩
    ∧ ContractRef.pull_spread (T := T) sp ptr st
        = (⟨(CallBuilderBase.pull_spread (T := T) sp ptr st).1⟩,
            (CallBuilderBase.pull_spread (T := T) sp ptr st).2)
    ∧ ContractRef.push_spread sp ⟨b⟩ ptr st = CallBuilderBase.push_spread sp b ptr st
    ∧ ContractRef.clear_spread sp ⟨b⟩ ptr st = CallBuilderBase.clear_spread sp b ptr st
    ∧ ContractRef.pull_packed ⟨b⟩ k st
        = (⟨(CallBuilderBase.pull_packed b k st).1⟩, (CallBuilderBase.pull_packed b k st).2)
    ∧ ContractRef.push_packed ⟨b⟩ k st = CallBuilderBase.push_packed b k st
    ∧ ContractRef.clear_packed ⟨b⟩ k st = CallBuilderBase.clear_packed b k st
    ∧ ContractRef.FOOTPRINT T A = CallBuilderBase.FOOTPRINT T A
    ∧ ContractRef.REQUIRES_DEEP_CLEAN_UP T A = CallBuilderBase.REQUIRES_DEEP_CLEAN_UP T A
    ∧ ContractRef.fmt NAME fmtA ⟨b⟩
        = debug_struct "CallForwarderBase" [("call_builder", CallBuilderBase.fmt NAME fmtA b)] := by
  refine ⟨rfl, rfl, rfl, ?_, rfl, rfl, rfl, rfl, rfl, rfl, rfl, rfl, rfl, rfl, rfl, rfl, rfl⟩
  unfold ContractRef.decode CallBuilderBase.decode
  cases cd.decode input with
  | ok p => exact rfl
  | error e => exact rfl

/-- C6: for handles built from `a1` and `a2`, handle equality returns exactly the
address equality verdict (for the builder and the forwarder), and — given the
external `Hash`/`PartialEq` consistency contract of the address type — equal
addresses yield equal handle hashes from every hasher state. -/
theorem c6_eq_hash_delegate (aeq : A → A → Bool) (ahash : A → σ → σ) (a1 a2 : A) :
    CallBuilderBase.eq aeq (CallBuilderBase.from_account_id (T := T) a1)
        (CallBuilderBase.from_account_id a2) = aeq a1 a2
    ∧ ContractRef.eq aeq (ContractRef.from_account_id (T := T) a1)
        (ContractRef.from_account_id a2) = aeq a1 a2
    ∧ ((∀ x y : A, aeq x y = true → ∀ s : σ, ahash x s = ahash y s) →
        aeq a1 a2 = true → ∀ s : σ,
          CallBuilderBase.hash ahash (CallBuilderBase.from_account_id (T := T) a1) s
              = CallBuilderBase.hash ahash (CallBuilderBase.from_account_id (T := T) a2) s
          ∧ ContractRef.hash ahash (ContractRef.from_account_id (T := T) a1) s
              = ContractRef.hash ahash (ContractRef.from_account_id (T := T) a2) s) := by
  refine ⟨rfl, rfl, fun hcons h12 s => ?_⟩
  have := hcons a1 a2 h12 s
  exact ⟨this, this⟩

/-- Witness for C6 at `A := Nat`, `aeq := Nat.beq`, an additive hasher and `a1 = a2 = 7`. -/
theorem c6_eq_hash_delegate_witness :
    CallBuilderBase.eq Nat.beq (CallBuilderBase.from_account_id (T := Unit) 7)
        (CallBuilderBase.from_account_id 7) = Nat.beq 7 7
    ∧ CallBuilderBase.hash (fun a s : Nat => s + a)
          (CallBuilderBase.from_account_id (T := Unit) 7) 0
        = CallBuilderBase.hash (fun a s : Nat => s + a)
          (CallBuilderBase.from_account_id (T := Unit) 7) 0 := by
  have h := c6_eq_hash_delegate (T := Unit) Nat.beq (fun a s : Nat => s + a) 7 7
  refine ⟨h.1, ?_⟩
  have hcons : ∀ x y : Nat, Nat.beq x y = true → ∀ s : Nat,
      (fun a s : Nat => s + a) x s = (fun a s : Nat => s + a) y s := by
    intro x y hxy s
    rw [Nat.eq_of_beq_eq_true hxy]
  exact (h.2.2 hcons (by decide) 0).1

/-- C7: the declared spread-storage footprint of both handle types is the constant
`1`, whatever the compile-time tag `T` and address type `A` (the latter standing in
for the environment's address choice). -/
theorem c7_footprint_constant_one (T T' : Type u) (A A' : Type) :
    CallBuilderBase.FOOTPRINT T A = 1
    ∧ ContractRef.FOOTPRINT T A = 1
    ∧ CallBuilderBase.FOOTPRINT T A = CallBuilderBase.FOOTPRINT T' A'
    ∧ ContractRef.FOOTPRINT T A = ContractRef.FOOTPRINT T' A' :=
  ⟨rfl, rfl, rfl, rfl⟩

/-- C8: the packed-layout pull/push/clear hooks of both handle types, at any storage
key and from any storage state, leave the handle (hence its encoding) and the entire
storage state unchanged: all three are no-ops. -/
theorem c8_packed_hooks_noop (cd : AccountScale A) (b : CallBuilderBase T A)
    (r : ContractRef T A) (k : K) (st : S) :
    CallBuilderBase.pull_packed b k st = (b, st)
    ∧ CallBuilderBase.push_packed b k st = st
    ∧ CallBuilderBase.clear_packed b k st = st
    ∧ CallBuilderBase.encode cd (CallBuilderBase.pull_packed b k st).1
        = CallBuilderBase.encode cd b
    ∧ ContractRef.pull_packed r k st = (r, st)
    ∧ ContractRef.push_packed r k st = st
    ∧ ContractRef.clear_packed r k st = st
    ∧ ContractRef.encode cd (ContractRef.pull_packed r k st).1 = ContractRef.encode cd r :=
  ⟨rfl, rfl, rfl, rfl, rfl, rfl, rfl, rfl⟩

/-- `String.append` is associative (helper for reasoning about the debug rendering). -/
theorem string_append_assoc (a b c : String) : a ++ b ++ c = a ++ (b ++ c) := by
  rcases a with ⟨as⟩
  rcases b with ⟨bs⟩
  rcases c with ⟨cs⟩
  exact congrArg String.mk (List.append_assoc as bs cs)

/-- C9: the builder's debug rendering contains the tag's compile-time display name
and the wrapped address's rendered value as substrings (witnessed by explicit
prefix/suffix decompositions), while equality and encoding are functions of the
wrapped address alone — the display name cannot influence them. -/
theorem c9_debug_name_and_address (cd : AccountScale A) (aeq : A → A → Bool)
    (NAME : String) (fmtA : A → String) (h h' : CallBuilderBase T A) :
    (∃ s1 s2 : String, CallBuilderBase.fmt NAME fmtA h = s1 ++ NAME ++ s2)
    ∧ (∃ s1 s2 : String, CallBuilderBase.fmt NAME fmtA h = s1 ++ fmtA h.account_id ++ s2)
    ∧ CallBuilderBase.eq aeq h h' = aeq h.account_id h'.account_id
    ∧ CallBuilderBase.encode cd h = scale_encode cd.encode_to h.account_id := by
  refine ⟨⟨"ContractRef" ++ " \x7b " ++ "name" ++ ": " ++ "\"",
          "\"" ++ ", " ++ ("account_id" ++ ": " ++ fmtA h.account_id) ++ " \x7d", ?_⟩,
        ⟨"ContractRef" ++ " \x7b " ++ ("name" ++ ": " ++ str_debug NAME ++ ", ")
            ++ "account_id" ++ ": ",
          " \x7d", ?_⟩, rfl, rfl⟩
  · show debug_struct "ContractRef"
        [("name", str_debug NAME), ("account_id", fmtA h.account_id)] = _
    simp only [debug_struct, debug_fields, str_debug, string_append_assoc]
  · show debug_struct "ContractRef"
        [("name", str_debug NAME), ("account_id", fmtA h.account_id)] = _
    simp only [debug_struct, debug_fields, str_debug, string_append_assoc]

/-- C10: given the external `Clone` contract (`aclone x = x`: an equal, independent
duplicate — addresses are value types) and reflexivity of the address equality,
cloning either handle yields a handle that is the same value, is reported equal by
the handle equality, and encodes to the same byte sequence. -/
theorem c10_clone_observational_identity (cd : AccountScale A) (aeq : A → A → Bool)
    (aclone : A → A) (hclone : ∀ x : A, aclone x = x) (hrefl : ∀ x : A, aeq x x = true)
    (b : CallBuilderBase T A) (r : ContractRef T A) :
    CallBuilderBase.clone aclone b = b
    ∧ ContractRef.clone aclone r = r
    ∧ CallBuilderBase.eq aeq (CallBuilderBase.clone aclone b) b = true
    ∧ ContractRef.eq aeq (ContractRef.clone aclone r) r = true
    ∧ CallBuilderBase.encode cd (CallBuilderBase.clone aclone b) = CallBuilderBase.encode cd b
    ∧ ContractRef.encode cd (ContractRef.clone aclone r) = ContractRef.encode cd r := by
  have hb : CallBuilderBase.clone aclone b = b := by
    show (⟨aclone b.account_id⟩ : CallBuilderBase T A) = b
    rw [hclone]
  have hr : ContractRef.clone aclone r = r := by
    show (⟨CallBuilderBase.clone aclone r.call_builder⟩ : ContractRef T A) = r
    rw [show CallBuilderBase.clone aclone r.call_builder = r.call_builder from by
      show (⟨aclone r.call_builder.account_id⟩ : CallBuilderBase T A) = r.call_builder
      rw [hclone]]
  refine ⟨hb, hr, ?_, ?_, ?_, ?_⟩
  · rw [hb]
    exact hrefl b.account_id
  · rw [hr]
    exact hrefl r.call_builder.account_id
  · rw [hb]
  · rw [hr]

/-- Witness for C10 at `A := Nat`, the identity clone, `Nat.beq` and concrete handles. -/
theorem c10_clone_observational_identity_witness :
    CallBuilderBase.clone id (CallBuilderBase.from_account_id (T := Unit) (3 : Nat))
        = CallBuilderBase.from_account_id (T := Unit) 3
    ∧ ContractRef.clone id (ContractRef.from_account_id (T := Unit) (4 : Nat))
        = ContractRef.from_account_id (T := Unit) 4 := by
  have h := c10_clone_observational_identity natScale Nat.beq id (fun _ => rfl)
    (fun x => Nat.beq_refl x) (CallBuilderBase.from_account_id (T := Unit) 3)
    (ContractRef.from_account_id (T := Unit) 4)
  exact ⟨h.1, h.2.1⟩
